import Mathlib

/-!
Verification of the Onibi repository.

The repository's single source file, `src/asset/reference/generate_architecture.py`,
builds a static architecture diagram with the python `diagrams` library.  The first
part of this file is a shallow embedding of that script: the clusters, nodes and
edges it constructs, and the `Diagram(...)` configuration (output path, format,
viewer flag) as a function of the invocation environment (current working
directory and the `__file__` argument).

The specification also describes a log ingestion and event-detection pipeline
(TailBuffer, LineParser, Detectors, Reducer, EventBus) whose implementation is
not checked in; those components are modelled from the spec in the second part,
each such definition marked `Modelled from the spec:`.
-/

namespace Onibi

/-- Node shapes used by the script (`Rack`, `Storage`, `Grafana`, `Ubuntu`). -/
inductive NodeShape where
  | rack
  | storage
  | grafana
  | ubuntu
deriving DecidableEq, Repr

/-- A node of the diagram: its label and shape. -/
structure DiagNode where
  label : String
  shape : NodeShape
deriving DecidableEq, Repr

/-- A directed edge of the diagram together with its attributes. -/
structure DiagEdge where
  src : String
  dst : String
  label : Option String
  color : String
  style : Option String
deriving DecidableEq, Repr

/-- Edge with all attributes, mirroring `a >> Edge(label=..., color=..., style=...) >> b`. -/
def edge (a b : DiagNode) (label : Option String) (color : String)
    (style : Option String) : DiagEdge :=
  ⟨a.label, b.label, label, color, style⟩

-- The nodes created in the script, in creation order, with the script's labels.

def menubar : DiagNode := ⟨"MenuBarController", .rack⟩

def menuview : DiagNode := ⟨"MenuBarView", .rack⟩

def settings_view : DiagNode := ⟨"SettingsView", .rack⟩

def settings_vm : DiagNode := ⟨"SettingsViewModel", .rack⟩

def notif_vm : DiagNode := ⟨"NotificationListVM", .rack⟩

def eventbus : DiagNode := ⟨"EventBus\n(Combine)", .grafana⟩

def scheduler : DiagNode := ⟨"BackgroundTask\nScheduler", .rack⟩

def notif_mgr : DiagNode := ⟨"Notification\nManager", .rack⟩

def session_mgr : DiagNode := ⟨"Session\nManager", .rack⟩

def err_reporter : DiagNode := ⟨"Error\nReporter", .rack⟩

def dep_container : DiagNode := ⟨"Dependency\nContainer", .rack⟩

def file_watcher : DiagNode := ⟨"FileWatcher\n(FSEvents)", .rack⟩

def log_buffer : DiagNode := ⟨"LogBuffer", .rack⟩

def logFileParser : DiagNode := ⟨"LogFileParser", .rack⟩

def log_truncator : DiagNode := ⟨"LogFile\nTruncator", .rack⟩

def ai_detector : DiagNode := ⟨"AI Response\nDetector", .rack⟩

def task_detector : DiagNode := ⟨"Task Completion\nDetector", .rack⟩

def dev_detector : DiagNode := ⟨"Dev Workflow\nParser", .rack⟩

def fp_reducer : DiagNode := ⟨"FalsePositive\nReducer", .rack⟩

def ipc_client : DiagNode := ⟨"GhosttyIPC\nClient", .rack⟩

def cli_service : DiagNode := ⟨"GhosttyCli\nService", .rack⟩

def process_mon : DiagNode := ⟨"Process\nMonitor", .rack⟩

def shell_hooks : DiagNode := ⟨"ShellHook\nInstaller", .rack⟩

def json_storage : DiagNode := ⟨"JSONStorage\nManager", .storage⟩

def lru_cache : DiagNode := ⟨"LRU Cache", .storage⟩

def user_defaults : DiagNode := ⟨"UserDefaults", .storage⟩

def logger : DiagNode := ⟨"Log\n(os.log)", .rack⟩

def perf_monitor : DiagNode := ⟨"Performance\nMonitor", .rack⟩

def constants : DiagNode := ⟨"Constants", .rack⟩

def ghostty : DiagNode := ⟨"Ghostty\nTerminal", .ubuntu⟩

def log_file : DiagNode := ⟨"~/.config/onibi/\nterminal.log", .storage⟩

def macos_notif : DiagNode := ⟨"macOS\nNotification Center", .rack⟩

/-- The clusters of the script and the labels of the nodes placed in each. -/
def onibiClusters : List (String × List String) :=
  [("Views / UI Layer", [menubar.label, menuview.label, settings_view.label]),
   ("ViewModels", [settings_vm.label, notif_vm.label]),
   ("Core Services", [eventbus.label, scheduler.label, notif_mgr.label,
      session_mgr.label, err_reporter.label, dep_container.label]),
   ("Log Processing Pipeline", [file_watcher.label, log_buffer.label,
      logFileParser.label, log_truncator.label]),
   ("Event Detection", [ai_detector.label, task_detector.label,
      dev_detector.label, fp_reducer.label]),
   ("Ghostty Integration", [ipc_client.label, cli_service.label,
      process_mon.label, shell_hooks.label]),
   ("Data / Storage", [json_storage.label, lru_cache.label, user_defaults.label]),
   ("Utilities", [logger.label, perf_monitor.label, constants.label])]

/-- All nodes the script creates, in creation order. -/
def onibiNodes : List DiagNode :=
  [menubar, menuview, settings_view, settings_vm, notif_vm, eventbus, scheduler,
   notif_mgr, session_mgr, err_reporter, dep_container, file_watcher, log_buffer,
   logFileParser, log_truncator, ai_detector, task_detector, dev_detector,
   fp_reducer, ipc_client, cli_service, process_mon, shell_hooks, json_storage,
   lru_cache, user_defaults, logger, perf_monitor, constants, ghostty, log_file,
   macos_notif]

/-- All edges the script draws, in program order. -/
def onibiEdges : List DiagEdge :=
  [edge ghostty log_file (some "shell hooks write") "#e94560" none,
   edge shell_hooks ghostty (some "installs hooks") "#e94560" (some "dashed"),
   edge log_file file_watcher (some "FSEvents") "#0f3460" none,
   edge file_watcher log_buffer none "#0f3460" none,
   edge log_buffer logFileParser none "#0f3460" none,
   edge log_truncator log_file (some "rotate") "#533483" (some "dashed"),
   edge scheduler file_watcher none "#e94560" none,
   edge scheduler log_buffer none "#e94560" none,
   edge scheduler logFileParser none "#e94560" none,
   edge logFileParser ai_detector none "#0f3460" none,
   edge logFileParser task_detector none "#0f3460" none,
   edge logFileParser dev_detector none "#0f3460" none,
   edge ai_detector fp_reducer none "#533483" none,
   edge task_detector fp_reducer none "#533483" none,
   edge dev_detector fp_reducer none "#533483" none,
   edge fp_reducer eventbus (some "publish") "#e94560" none,
   edge scheduler eventbus (some "events") "#e94560" none,
   edge eventbus notif_mgr none "#e94560" none,
   edge eventbus session_mgr none "#e94560" none,
   edge eventbus menubar none "#e94560" none,
   edge eventbus settings_vm none "#e94560" (some "dashed"),
   edge notif_mgr macos_notif (some "UNNotification") "#533483" none,
   edge ipc_client cli_service none "#0f3460" none,
   edge process_mon ipc_client (some "NSWorkspace") "#0f3460" none,
   edge scheduler json_storage (some "append") "#533483" (some "dashed"),
   edge scheduler lru_cache none "#533483" (some "dashed"),
   edge settings_vm user_defaults none "#533483" (some "dashed"),
   edge menubar menuview none "#0f3460" none,
   edge settings_view settings_vm none "#0f3460" none,
   edge err_reporter logger (some "os.log") "#533483" (some "dashed"),
   edge dep_container eventbus none "#555577" (some "dashed"),
   edge dep_container session_mgr none "#555577" (some "dashed"),
   edge dep_container notif_mgr none "#555577" (some "dashed"),
   edge dep_container err_reporter none "#555577" (some "dashed")]

/-- Whether the diagram has an edge from label `a` to label `b`. -/
def hasEdge (a b : String) : Bool :=
  onibiEdges.any fun e => e.src == a && e.dst == b

/-- The labels of the three detector nodes. -/
def detectorLabels : List String :=
  [ai_detector.label, task_detector.label, dev_detector.label]

/-!  Embedding of the script's path handling and the `Diagram(...)` call.

The script computes `out = os.path.dirname(os.path.abspath(__file__))` and opens
`Diagram(..., filename=os.path.join(out, "architecture"), outformat="png",
show=False, direction="TB", ...)`.  Paths are modelled as component lists; a
python path value carries whether it is absolute, and `os.path.abspath` resolves
a relative path against the current working directory. -/

/-- A path as the script receives it in `__file__`: absolute or relative,
as a list of components. -/
structure PyPath where
  absolute : Bool
  comps : List String
deriving DecidableEq, Repr

/-- `os.path.abspath`: an absolute path stands; a relative one is resolved
against the current working directory. -/
def abspath (cwd : List String) (p : PyPath) : List String :=
  if p.absolute then p.comps else cwd ++ p.comps

/-- `os.path.dirname`: drop the last path component. -/
def dirname (p : List String) : List String := p.dropLast

/-- The invocation environment of the script: the current working directory and
the `__file__` value the interpreter passes. -/
structure ScriptEnv where
  cwd : List String
  fileArg : PyPath
deriving Repr

/-- The arguments of the `Diagram(...)` call that determine its output. -/
structure DiagramConfig where
  filename : List String
  outformat : String
  showDiag : Bool
  direction : String
deriving DecidableEq, Repr

/-- `out = os.path.dirname(os.path.abspath(__file__))`. -/
def scriptOutDir (env : ScriptEnv) : List String :=
  dirname (abspath env.cwd env.fileArg)

/-- The `Diagram(...)` configuration the script opens:
`filename=os.path.join(out, "architecture")`, `outformat="png"`, `show=False`,
`direction="TB"`. -/
def diagramConfig (env : ScriptEnv) : DiagramConfig :=
  { filename := scriptOutDir env ++ ["architecture"]
    outformat := "png"
    showDiag := false
    direction := "TB" }

/-- The whole run of the script: the output configuration and the constructed
diagram (clusters, nodes, edges). -/
structure ScriptRun where
  config : DiagramConfig
  clusters : List (String × List String)
  nodes : List DiagNode
  edges : List DiagEdge

/-- One run of `generate_architecture.py` in environment `env`. -/
def generate_architecture (env : ScriptEnv) : ScriptRun :=
  { config := diagramConfig env
    clusters := onibiClusters
    nodes := onibiNodes
    edges := onibiEdges }

/-!  Part 2: the log ingestion and event-detection pipeline.

The pipeline (Watcher, TailBuffer, LineParser, Detectors, Reducer, Scheduler,
EventBus, Truncator) has no checked-in implementation; the definitions below
are modelled from the specification's component design. -/

/-- Modelled from the spec: a ParsedRecord `(timestamp, session id, category
tag, free-form payload)` produced by the LineParser (no checked-in LineParser
exists). -/
structure ParsedRecord where
  timestamp : String
  sessionId : String
  category : String
  payload : String
deriving DecidableEq, Repr

/-- Modelled from the spec: the result of `parse(LogLine)` — a ParsedRecord or
`Rejected`. -/
inductive ParseResult where
  | ok (r : ParsedRecord)
  | rejected
deriving DecidableEq, Repr

/-- Split a character list into the fields separated by the fixed delimiter
`|`. -/
def splitFields : List Char → List (List Char)
  | [] => [[]]
  | c :: cs =>
      if c = '|' then [] :: splitFields cs
      else
        match splitFields cs with
        | [] => [[c]]
        | f :: fs => (c :: f) :: fs

/-- Modelled from the spec: `LineParser.parse` (no checked-in LineParser
exists).  The grammar is the fixed delimiter-separated field list
`timestamp | session-id | category | payload` with a required (non-empty)
timestamp and category tag; anything else is `Rejected`. -/
def parse (line : String) : ParseResult :=
  match splitFields line.toList with
  | [t, s, c, p] =>
      if t ≠ [] ∧ c ≠ [] then
        .ok ⟨String.mk t, String.mk s, String.mk c, String.mk p⟩
      else .rejected
  | _ => .rejected

/-- Modelled from the spec: a detection fingerprint — a stable key from the
semantically relevant fields (kind + session id + a normalized payload key),
not derived from wall-clock time. -/
structure Fingerprint where
  kind : String
  sessionId : String
  payloadKey : String
deriving DecidableEq, Repr

/-- Strip leading and trailing spaces from a character list. -/
def trimChars (l : List Char) : List Char :=
  ((l.dropWhile (· = ' ')).reverse.dropWhile (· = ' ')).reverse

/-- The normalized payload key entering a fingerprint (whitespace-trimmed). -/
def normalizeKey (payload : String) : String := String.mk (trimChars payload.toList)

/-- Whether `s` starts with the pattern `pat`. -/
def startsWithStr (pat s : String) : Bool := pat.toList.isPrefixOf s.toList

/-- Fingerprint of a detection for `kind` on the record `r`. -/
def mkFingerprint (kind : String) (r : ParsedRecord) : Fingerprint :=
  ⟨kind, r.sessionId, normalizeKey r.payload⟩

/-- Modelled from the spec: a DetectionEvent
`(kind, session id, fingerprint, confidence, source timestamp, detector id)`. -/
structure DetectionEvent where
  kind : String
  sessionId : String
  fingerprint : Fingerprint
  confidence : Nat
  srcTimestamp : String
  detectorId : String
deriving DecidableEq, Repr

/-- Modelled from the spec: a ConfirmedDetection — a DetectionEvent that
survived the Reducer, carrying the set of detector ids that agreed on it. -/
structure ConfirmedDetection where
  event : DetectionEvent
  detectors : List String
deriving DecidableEq, Repr

/-- Modelled from the spec: the per-session state machine of a detector —
`Idle → Pending → Idle` (pending records when the session entered the pending
state; the machine returns to idle on emission or timeout). -/
inductive PendState where
  | idle
  | pending (since : Nat)
deriving DecidableEq, Repr

/-- Modelled from the spec: a detector, polymorphic over the capability
`consume(ParsedRecord) -> zero-or-more DetectionEvent`, as its initial
per-session state and its per-session step on one record at tick time `now`. -/
structure Detector (σ : Type) where
  init : σ
  step : σ → Nat → ParsedRecord → σ × List DetectionEvent

/-- Point update of a per-session state map. -/
def sessUpdate {σ : Type} (m : String → σ) (sid : String) (v : σ) : String → σ :=
  fun x => if x = sid then v else m x

/-- Feed one record to a detector: the record's own session state is stepped
and written back; other sessions are untouched. -/
def consumeOne {σ : Type} (d : Detector σ) (m : String → σ) (now : Nat)
    (r : ParsedRecord) : (String → σ) × List DetectionEvent :=
  let (s, evs) := d.step (m r.sessionId) now r
  (sessUpdate m r.sessionId s, evs)

/-- Fold step of a detector over a timed record stream. -/
def detStep {σ : Type} (d : Detector σ) (acc : (String → σ) × List DetectionEvent)
    (nr : Nat × ParsedRecord) : (String → σ) × List DetectionEvent :=
  let (m, es) := consumeOne d acc.1 nr.1 nr.2
  (m, acc.2 ++ es)

/-- Run a detector over a timed record stream from the all-idle state. -/
def runDetector {σ : Type} (d : Detector σ) (l : List (Nat × ParsedRecord)) :
    (String → σ) × List DetectionEvent :=
  l.foldl (detStep d) (fun _ => d.init, [])

/-- Fold step of a detector over the records of one session only. -/
def sessStep {σ : Type} (d : Detector σ) (acc : σ × List DetectionEvent)
    (nr : Nat × ParsedRecord) : σ × List DetectionEvent :=
  let (s, es) := d.step acc.1 nr.1 nr.2
  (s, acc.2 ++ es)

/-- Run a detector over the records of one session only. -/
def runSession {σ : Type} (d : Detector σ) (l : List (Nat × ParsedRecord)) :
    σ × List DetectionEvent :=
  l.foldl (sessStep d) (d.init, [])

/-- Apply the configurable-maximum-gap timeout: a pending state older than
`maxGap` is abandoned back to idle. -/
def applyTimeout (maxGap : Nat) (st : PendState) (now : Nat) : PendState :=
  match st with
  | .pending t₀ => if maxGap < now - t₀ then .idle else .pending t₀
  | .idle => .idle

/-- Modelled from the spec: the AI-response-completion detector's per-session
step (no checked-in detector exists) — a start marker (`AI_START`) puts the
session in pending; a completion marker (`AI_END`) within the maximum gap
emits an `ai-response` detection and returns to idle. -/
def aiStep (maxGap : Nat) (st : PendState) (now : Nat) (r : ParsedRecord) :
    PendState × List DetectionEvent :=
  let st := applyTimeout maxGap st now
  if r.category = "AI_START" then (.pending now, [])
  else if r.category = "AI_END" then
    match st with
    | .pending _ =>
        (.idle, [⟨"ai-response", r.sessionId, mkFingerprint "ai-response" r, 90,
                  r.timestamp, "ai-detector"⟩])
    | .idle => (.idle, [])
  else (st, [])

/-- The AI-response-completion detector. -/
def aiDetector (maxGap : Nat) : Detector PendState := ⟨.idle, aiStep maxGap⟩

/-- Known shell exit-status patterns: a clean exit status or an explicit
`exit ...` payload. -/
def isExitPattern (payload : String) : Bool :=
  payload == "0" || startsWithStr "exit " payload

/-- Modelled from the spec: the task-completion detector's per-session step
(no checked-in detector exists) — a command start (`CMD_START`) puts the
session in pending; a command exit (`CMD_EXIT`) whose payload matches a known
shell exit-status pattern within the maximum gap emits a `task-completion`
detection and returns to idle. -/
def taskStep (maxGap : Nat) (st : PendState) (now : Nat) (r : ParsedRecord) :
    PendState × List DetectionEvent :=
  let st := applyTimeout maxGap st now
  if r.category = "CMD_START" then (.pending now, [])
  else if r.category = "CMD_EXIT" ∧ isExitPattern r.payload then
    match st with
    | .pending _ =>
        (.idle, [⟨"task-completion", r.sessionId, mkFingerprint "task-completion" r,
                  80, r.timestamp, "task-detector"⟩])
    | .idle => (.idle, [])
  else (st, [])

/-- The task-completion detector. -/
def taskDetector (maxGap : Nat) : Detector PendState := ⟨.idle, taskStep maxGap⟩

/-- Known build/test/version-control command patterns watched by the
dev-workflow detector. -/
def devPatterns : List String :=
  ["make", "build", "test", "git commit", "git push", "git merge"]

/-- Whether a payload matches a known dev-workflow command pattern. -/
def isDevCommand (payload : String) : Bool :=
  devPatterns.any fun pat => startsWithStr pat payload

/-- Modelled from the spec: the dev-workflow detector's per-session step (no
checked-in detector exists) — a command start whose payload matches a known
build/test/VCS pattern puts the session in pending; the command's exit within
the maximum gap emits a `dev-workflow` detection and returns to idle. -/
def devStep (maxGap : Nat) (st : PendState) (now : Nat) (r : ParsedRecord) :
    PendState × List DetectionEvent :=
  let st := applyTimeout maxGap st now
  if r.category = "CMD_START" ∧ isDevCommand r.payload then (.pending now, [])
  else if r.category = "CMD_EXIT" then
    match st with
    | .pending _ =>
        (.idle, [⟨"dev-workflow", r.sessionId, mkFingerprint "dev-workflow" r, 70,
                  r.timestamp, "dev-detector"⟩])
    | .idle => (.idle, [])
  else (st, [])

/-- The dev-workflow detector. -/
def devDetector (maxGap : Nat) : Detector PendState := ⟨.idle, devStep maxGap⟩

/-- Modelled from the spec: one entry of the Reducer's time-windowed set —
the time of the last confirmation for a fingerprint, and the confirmation
whose detector-id set later candidates are merged into. -/
structure WindowEntry where
  lastConfirmed : Nat
  confirmation : ConfirmedDetection
deriving DecidableEq, Repr

/-- The Reducer's window: entries keyed by fingerprint, newest first. -/
def ReducerState : Type := List (Fingerprint × WindowEntry)

/-- Lazy eviction: drop entries whose confirmation is older than the window
`W`. -/
def purge (W now : Nat) (st : ReducerState) : ReducerState :=
  st.filter fun fe => now ≤ fe.2.lastConfirmed + W

/-- Look a fingerprint up in the window. -/
def findFp (st : ReducerState) (fp : Fingerprint) : Option (Fingerprint × WindowEntry) :=
  st.find? fun fe => decide (fe.1 = fp)

/-- Add a detector id to a confirmation's detector-id set (a set: no
duplicate ids). -/
def addDetector (c : ConfirmedDetection) (d : String) : ConfirmedDetection :=
  if c.detectors.contains d then c else { c with detectors := c.detectors ++ [d] }

/-- Merge a suppressed candidate's detector id into the window entry of its
fingerprint. -/
def mergeInto (st : ReducerState) (fp : Fingerprint) (d : String) : ReducerState :=
  st.map fun fe =>
    if fe.1 = fp then (fe.1, { fe.2 with confirmation := addDetector fe.2.confirmation d })
    else fe

/-- Modelled from the spec: `Reducer.reduce(DetectionEvent) -> zero-or-one
ConfirmedDetection` (no checked-in Reducer exists).  Entries older than `W`
are lazily purged; a fingerprint confirmed within the last `W` suppresses the
candidate and merges its detector id into the existing confirmation;
otherwise the candidate is confirmed and a window entry is created. -/
def reduce (W : Nat) (st : ReducerState) (now : Nat) (e : DetectionEvent) :
    ReducerState × Option ConfirmedDetection :=
  let st := purge W now st
  match findFp st e.fingerprint with
  | some _ => (mergeInto st e.fingerprint e.detectorId, none)
  | none =>
      let c : ConfirmedDetection := ⟨e, [e.detectorId]⟩
      ((e.fingerprint, ⟨now, c⟩) :: st, some c)

/-- Run the Reducer over a batch of candidates in arrival order. -/
def reduceMany (W : Nat) (st : ReducerState) (now : Nat)
    (evs : List DetectionEvent) : ReducerState × List ConfirmedDetection :=
  evs.foldl
    (fun acc e =>
      let (st', out) := reduce W acc.1 now e
      (st', acc.2 ++ out.toList))
    (st, [])

/-- The pipeline's configuration: the detectors' maximum pending gap and the
Reducer's dedup window `W`. -/
structure Config where
  maxGap : Nat
  window : Nat
deriving Repr

/-- Modelled from the spec: the state of one pipeline tick chain —
the malformed-line counter, the three detectors' per-session states, the
Reducer window, and the ConfirmedDetections published to the bus so far. -/
structure PipeState where
  malformed : Nat
  aiMap : String → PendState
  taskMap : String → PendState
  devMap : String → PendState
  reducer : ReducerState
  published : List ConfirmedDetection

/-- The pipeline's start state: no malformed lines, every session idle in
every detector, an empty dedup window, nothing published. -/
def initPipe : PipeState :=
  ⟨0, fun _ => .idle, fun _ => .idle, fun _ => .idle, [], []⟩

/-- Modelled from the spec: one line through the tick chain
LineParser → Detectors → Reducer → EventBus.publish.  A malformed line only
increments the counter; a parsed record is fed to the three detectors
independently and their candidates are reduced in order. -/
def pipeStep (cfg : Config) (ps : PipeState) (now : Nat) (line : String) : PipeState :=
  match parse line with
  | .rejected => { ps with malformed := ps.malformed + 1 }
  | .ok r =>
      let (aiM, aiEvs) := consumeOne (aiDetector cfg.maxGap) ps.aiMap now r
      let (taskM, taskEvs) := consumeOne (taskDetector cfg.maxGap) ps.taskMap now r
      let (devM, devEvs) := consumeOne (devDetector cfg.maxGap) ps.devMap now r
      let (red, outs) := reduceMany cfg.window ps.reducer now (aiEvs ++ taskEvs ++ devEvs)
      { malformed := ps.malformed, aiMap := aiM, taskMap := taskM, devMap := devM,
        reducer := red, published := ps.published ++ outs }

/-- Run the pipeline over a stream of timed lines. -/
def pipeRun (cfg : Config) (lines : List (Nat × String)) : PipeState :=
  lines.foldl (fun ps nl => pipeStep cfg ps nl.1 nl.2) initPipe

/-!  TailBuffer. -/

/-- The watched file as the TailBuffer observes it: its identity (surviving a
rename but not a truncate-to-zero) and its byte content. -/
structure FileState where
  id : Nat
  content : List Char
deriving Repr

/-- Modelled from the spec: the TailBuffer's state — the Watermark `(file
identity, byte offset)` plus the buffered trailing fragment of an incomplete
line (no checked-in TailBuffer exists). -/
structure TailState where
  wmId : Nat
  wmOfs : Nat
  frag : List Char
deriving DecidableEq, Repr

/-- Split bytes at line terminators: the complete lines (terminator stripped)
and the trailing incomplete fragment. -/
def splitLines : List Char → List (List Char) × List Char
  | [] => ([], [])
  | c :: cs =>
      let r := splitLines cs
      if c = '\n' then ([] :: r.1, r.2)
      else
        match r.1 with
        | [] => ([], c :: r.2)
        | l :: ls => ((c :: l) :: ls, r.2)

/-- Rotation test: the file's identity changed, or its size fell below the
stored watermark offset. -/
def isRotation (ts : TailState) (f : FileState) : Bool :=
  ts.wmId != f.id || f.content.length < ts.wmOfs

/-- Modelled from the spec: `TailBuffer.poll() -> ordered sequence of LogLine`
(no checked-in TailBuffer exists).  On a detected rotation the watermark is
reset to 0 and the buffered fragment discarded; otherwise the bytes from the
watermark to the end of the file are read, prefixed with the buffered
fragment, split into complete lines (delivered) and a trailing fragment
(buffered for the next call), and the watermark advances to the file's
size. -/
def poll (ts : TailState) (f : FileState) : TailState × List (List Char) :=
  if isRotation ts f then
    ({ wmId := f.id, wmOfs := 0, frag := [] }, [])
  else
    let bytes := f.content.drop ts.wmOfs
    let (lines, frag) := splitLines (ts.frag ++ bytes)
    ({ wmId := ts.wmId, wmOfs := f.content.length, frag := frag }, lines)

/-- One append followed by one poll: the file grows by `a`, the buffer is
polled, and the delivered lines are logged. -/
def tailStep (fid : Nat) (acc : List Char × TailState × List (List Char))
    (a : List Char) : List Char × TailState × List (List Char) :=
  let content' := acc.1 ++ a
  let pr := poll acc.2.1 ⟨fid, content'⟩
  (content', pr.1, acc.2.2 ++ pr.2)

/-- Drive the TailBuffer over a sequence of appends to a file of identity
`fid`: after each append the buffer is polled once; the trace carries the
file content so far, the buffer state, and every line delivered. -/
def tailTrace (fid : Nat) (appends : List (List Char)) :
    List Char × TailState × List (List Char) :=
  appends.foldl (tailStep fid) ([], ⟨fid, 0, []⟩, [])

/-!  EventBus. -/

/-- Modelled from the spec: one live Subscription's state — its bounded
delivery queue (front = oldest unread), its missed-events flag, and its queue
capacity. -/
structure SubState (α : Type) where
  queue : List α
  missed : Bool
  cap : Nat

/-- Modelled from the spec: fan one published event into one subscriber's
bounded queue (no checked-in EventBus exists).  A full queue drops its oldest
unread event and sets the missed-events flag; the publisher never waits. -/
def publishSub {α : Type} (ev : α) (s : SubState α) : SubState α :=
  if s.queue.length < s.cap then { s with queue := s.queue ++ [ev] }
  else { queue := s.queue.tail ++ [ev], missed := true, cap := s.cap }

/-- Publish fans an event out to every live subscriber's queue,
independently. -/
def publishAll {α : Type} (ev : α) (subs : List (SubState α)) : List (SubState α) :=
  subs.map (publishSub ev)

/-- An operation on the bus: a publish, or one subscriber draining its next
event. -/
inductive BusOp (α : Type) where
  | publish (ev : α)
  | receive (i : Nat)

/-- A trace of the bus: the subscribers, the log of events each subscriber
has received, and the log of events published so far. -/
structure BusTrace (α : Type) where
  subs : List (SubState α)
  received : List (List α)
  published : List α

/-- Modelled from the spec: one bus operation.  `publish` appends to every
queue (dropping the oldest where full); `receive i` dequeues the oldest
unread event of subscriber `i` into its received log. -/
def busStep {α : Type} (st : BusTrace α) (op : BusOp α) : BusTrace α :=
  match op with
  | .publish ev =>
      { subs := publishAll ev st.subs, received := st.received,
        published := st.published ++ [ev] }
  | .receive i =>
      match st.subs[i]? with
      | none => st
      | some s =>
          match s.queue with
          | [] => st
          | e :: rest =>
              { subs := st.subs.set i { s with queue := rest },
                received := st.received.set i ((st.received.getD i []) ++ [e]),
                published := st.published }

/-- Run the bus from a fresh set of subscribers with the given capacities. -/
def busRun {α : Type} (caps : List Nat) (ops : List (BusOp α)) : BusTrace α :=
  ops.foldl busStep
    { subs := caps.map fun c => ⟨[], false, c⟩,
      received := caps.map fun _ => [], published := [] }

/-- The bus's delivery invariant: for every subscriber, its received log
followed by its still-queued events is a subsequence of everything
published. -/
def BusInv {α : Type} (st : BusTrace α) : Prop :=
  List.Forall₂ (fun r sub => (r ++ SubState.queue sub).Sublist st.published)
    st.received st.subs

end Onibi

namespace Onibi

/-- C1: the diagram contains the pipeline edge chain
log file → FileWatcher → LogBuffer → LogFileParser → each detector →
FalsePositiveReducer → EventBus, and every edge leaving a detector goes to the
FalsePositiveReducer (so no detector edge bypasses the reducer on the way to
the bus). -/
theorem claim_C1_pipeline_flow :
    ([(log_file.label, file_watcher.label),
      (file_watcher.label, log_buffer.label),
      (log_buffer.label, logFileParser.label),
      (logFileParser.label, ai_detector.label),
      (logFileParser.label, task_detector.label),
      (logFileParser.label, dev_detector.label),
      (ai_detector.label, fp_reducer.label),
      (task_detector.label, fp_reducer.label),
      (dev_detector.label, fp_reducer.label),
      (fp_reducer.label, eventbus.label)].all fun p => hasEdge p.1 p.2) = true
    ∧ (onibiEdges.all fun e =>
        !(detectorLabels.contains e.src) || (e.dst == fp_reducer.label)) = true := by
  constructor <;> decide

/-- C10: the diagram structure the script constructs — clusters, nodes and
edges — is the same in every invocation environment (no input, environment
dependence, or randomness feeds into it). -/
theorem claim_C10_deterministic_structure (e₁ e₂ : ScriptEnv) :
    (generate_architecture e₁).clusters = (generate_architecture e₂).clusters
    ∧ (generate_architecture e₁).nodes = (generate_architecture e₂).nodes
    ∧ (generate_architecture e₁).edges = (generate_architecture e₂).edges :=
  ⟨rfl, rfl, rfl⟩

/-- C9: whenever two invocations (from arbitrary working directories, with the
`__file__` values the interpreter passes there) resolve to the same script
file, they produce the same output configuration: the file named
`architecture` in the script's own directory, in PNG format, with the viewer
suppressed (`show=False`). -/
theorem claim_C9_output_location (cwd₁ cwd₂ : List String) (p₁ p₂ : PyPath)
    (h : abspath cwd₁ p₁ = abspath cwd₂ p₂) :
    (generate_architecture ⟨cwd₁, p₁⟩).config = (generate_architecture ⟨cwd₂, p₂⟩).config
    ∧ (generate_architecture ⟨cwd₁, p₁⟩).config.filename
        = dirname (abspath cwd₁ p₁) ++ ["architecture"]
    ∧ (generate_architecture ⟨cwd₁, p₁⟩).config.outformat = "png"
    ∧ (generate_architecture ⟨cwd₁, p₁⟩).config.showDiag = false := by
  refine ⟨?_, rfl, rfl, rfl⟩
  simp [generate_architecture, diagramConfig, scriptOutDir, h]

/-- Splitting an extended byte sequence: the complete lines of `x` stand, and
the remainder of `x ++ y` is the split of `x`'s trailing fragment followed by
`y`. -/
theorem splitLines_append (x y : List Char) :
    splitLines (x ++ y)
      = ((splitLines x).1 ++ (splitLines ((splitLines x).2 ++ y)).1,
         (splitLines ((splitLines x).2 ++ y)).2) := by
  induction x with
  | nil => simp [splitLines]
  | cons c x ih =>
    by_cases hc : c = '\n'
    · simp [splitLines, hc, ih]
    · simp only [List.cons_append, splitLines, if_neg hc]
      cases hA : (splitLines x).1 with
      | cons l ls => simp [ih, hA]
      | nil =>
        simp only [List.nil_append]
        cases hB : (splitLines ((splitLines x).2 ++ y)).1 with
        | cons l ls => simp [splitLines, if_neg hc, ih, hA, hB]
        | nil => simp [splitLines, if_neg hc, ih, hA, hB]

/-- Invariant of the append/poll loop: starting from a buffer synchronised
with content `content` (watermark at its end, fragment the split remainder,
its complete lines delivered), the trace stays synchronised with the grown
content. -/
theorem tailTrace_go (fid : Nat) (appends : List (List Char)) :
    ∀ content : List Char,
      appends.foldl (tailStep fid)
          (content, ⟨fid, content.length, (splitLines content).2⟩, (splitLines content).1)
        = (content ++ appends.flatten,
           ⟨fid, (content ++ appends.flatten).length,
            (splitLines (content ++ appends.flatten)).2⟩,
           (splitLines (content ++ appends.flatten)).1) := by
  induction appends with
  | nil => intro content; simp
  | cons a rest ih =>
    intro content
    have hlt : ¬ ((content ++ a).length < content.length) := by
      simp [List.length_append]
    have hrot : isRotation ⟨fid, content.length, (splitLines content).2⟩
        ⟨fid, content ++ a⟩ = false := by
      simp [isRotation, hlt]
    have hstep : tailStep fid
          (content, ⟨fid, content.length, (splitLines content).2⟩, (splitLines content).1) a
        = (content ++ a,
           ⟨fid, (content ++ a).length, (splitLines (content ++ a)).2⟩,
           (splitLines (content ++ a)).1) := by
      simp only [tailStep, poll, hrot, Bool.false_eq_true, if_false, List.drop_left]
      rw [splitLines_append content a]
    rw [List.foldl_cons, hstep, ih (content ++ a)]
    simp

/-- C3: over any sequence of appends (no rotation), the lines the TailBuffer
delivers across all polls are exactly the final content's terminator-split
complete lines, in order (so no line twice, none before its terminator); the
trailing unterminated fragment is exactly what stays buffered, and the
watermark rests at the file's size. -/
theorem claim_C3_tailbuffer_delivery (fid : Nat) (appends : List (List Char)) :
    (tailTrace fid appends).1 = appends.flatten
    ∧ (tailTrace fid appends).2.2 = (splitLines appends.flatten).1
    ∧ (tailTrace fid appends).2.1.frag = (splitLines appends.flatten).2
    ∧ (tailTrace fid appends).2.1.wmOfs = appends.flatten.length := by
  have h := tailTrace_go fid appends []
  simp only [splitLines, List.length_nil, List.nil_append] at h
  unfold tailTrace
  rw [h]
  simp

/-- C4: one poll never leaves the watermark offset beyond the current file
size, and the offset decreases only when a rotation was detected — in which
case it is reset to 0 and the buffered fragment is discarded. -/
theorem claim_C4_watermark_invariant (ts : TailState) (f : FileState) :
    (poll ts f).1.wmOfs ≤ f.content.length
    ∧ ((poll ts f).1.wmOfs < ts.wmOfs →
        isRotation ts f = true ∧ (poll ts f).1.wmOfs = 0 ∧ (poll ts f).1.frag = []) := by
  by_cases h : isRotation ts f
  · simp [poll, h]
  · have hle : ts.wmOfs ≤ f.content.length := by
      simp [isRotation] at h
      omega
    simp [poll, h]
    omega

/-- Localization: a detector's per-session map at `s` and its emitted events
for `s` are computed by folding the per-session step over just the records of
session `s`, provided every event a step emits belongs to its record's
session. -/
theorem detLocalize {σ : Type} (d : Detector σ)
    (hstep : ∀ (st : σ) (now : Nat) (r : ParsedRecord),
      ∀ e ∈ (d.step st now r).2, e.sessionId = r.sessionId) :
    ∀ (l : List (Nat × ParsedRecord)) (acc : (String → σ) × List DetectionEvent) (s : String),
      ((l.foldl (detStep d) acc).1 s
          = ((l.filter fun nr => nr.2.sessionId == s).foldl (sessStep d)
              (acc.1 s, acc.2.filter fun e => e.sessionId == s)).1)
      ∧ (((l.foldl (detStep d) acc).2.filter fun e => e.sessionId == s)
          = ((l.filter fun nr => nr.2.sessionId == s).foldl (sessStep d)
              (acc.1 s, acc.2.filter fun e => e.sessionId == s)).2) := by
  intro l
  induction l with
  | nil => intro acc s; exact ⟨rfl, rfl⟩
  | cons nr l ih =>
    intro acc s
    rw [List.foldl_cons, List.filter_cons]
    obtain ⟨ih1, ih2⟩ := ih (detStep d acc nr) s
    by_cases hs : nr.2.sessionId = s
    · subst hs
      simp only [beq_self_eq_true, if_true, List.foldl_cons]
      have hes : ((d.step (acc.1 nr.2.sessionId) nr.1 nr.2).2.filter
            fun e => e.sessionId == nr.2.sessionId)
          = (d.step (acc.1 nr.2.sessionId) nr.1 nr.2).2 :=
        List.filter_eq_self.mpr fun e he => by simp [hstep _ _ _ e he]
      have hstart : ((detStep d acc nr).1 nr.2.sessionId,
            (detStep d acc nr).2.filter fun e => e.sessionId == nr.2.sessionId)
          = sessStep d (acc.1 nr.2.sessionId,
              acc.2.filter fun e => e.sessionId == nr.2.sessionId) nr := by
        simp [detStep, consumeOne, sessStep, sessUpdate, List.filter_append, hes]
      rw [ih1, ih2, hstart]
      exact ⟨rfl, rfl⟩
    · have hneq : (nr.2.sessionId == s) = false := by simp [hs]
      simp only [hneq, Bool.false_eq_true, if_false]
      have hes : ((d.step (acc.1 nr.2.sessionId) nr.1 nr.2).2.filter
            fun e => e.sessionId == s) = [] := by
        rw [List.filter_eq_nil_iff]
        intro e he
        simp [hstep _ _ _ e he, hs]
      have hstart : ((detStep d acc nr).1 s,
            (detStep d acc nr).2.filter fun e => e.sessionId == s)
          = (acc.1 s, acc.2.filter fun e => e.sessionId == s) := by
        have : ¬ (s = nr.2.sessionId) := fun h => hs h.symm
        simp [detStep, consumeOne, sessUpdate, List.filter_append, hes, this]
      rw [ih1, ih2, hstart]
      exact ⟨rfl, rfl⟩

/-- Every event the AI-response step emits carries its record's session id. -/
theorem aiStep_sessionId (g : Nat) : ∀ (st : PendState) (now : Nat) (r : ParsedRecord),
    ∀ e ∈ (aiStep g st now r).2, e.sessionId = r.sessionId := by
  intro st now r e he
  unfold aiStep at he
  by_cases h1 : r.category = "AI_START"
  · simp [h1] at he
  · by_cases h2 : r.category = "AI_END"
    · simp only [h1, h2, if_false, if_true] at he
      rcases happ : applyTimeout g st now with _ | t0
      · rw [happ] at he
        simp at he
      · rw [happ] at he
        simp at he
        subst he
        rfl
    · simp [h1, h2] at he

/-- Every event the task-completion step emits carries its record's session
id. -/
theorem taskStep_sessionId (g : Nat) : ∀ (st : PendState) (now : Nat) (r : ParsedRecord),
    ∀ e ∈ (taskStep g st now r).2, e.sessionId = r.sessionId := by
  intro st now r e he
  unfold taskStep at he
  by_cases h1 : r.category = "CMD_START"
  · simp [h1] at he
  · by_cases h2 : r.category = "CMD_EXIT" ∧ isExitPattern r.payload
    · simp only [h1, h2, if_false, if_true] at he
      rcases happ : applyTimeout g st now with _ | t0
      · rw [happ] at he
        simp at he
      · rw [happ] at he
        simp at he
        subst he
        rfl
    · simp [h1, h2] at he

/-- Every event the dev-workflow step emits carries its record's session
id. -/
theorem devStep_sessionId (g : Nat) : ∀ (st : PendState) (now : Nat) (r : ParsedRecord),
    ∀ e ∈ (devStep g st now r).2, e.sessionId = r.sessionId := by
  intro st now r e he
  unfold devStep at he
  by_cases h1 : r.category = "CMD_START" ∧ isDevCommand r.payload
  · simp [h1] at he
  · by_cases h2 : r.category = "CMD_EXIT"
    · simp only [h1, h2, if_false, if_true] at he
      rcases happ : applyTimeout g st now with _ | t0
      · rw [happ] at he
        simp at he
      · rw [happ] at he
        simp at he
        subst he
        rfl
    · simp [h1, h2] at he

/-- C8: two interleavings of a timed record stream that agree on every
session's subsequence (same records of each session, in the same relative
order) give every detector identical per-session results — the same final
session state and the same emitted events for each session. -/
theorem claim_C8_detector_independence (maxGap : Nat) (l₁ l₂ : List (Nat × ParsedRecord))
    (hfil : ∀ s : String, (l₁.filter fun nr => nr.2.sessionId == s)
        = (l₂.filter fun nr => nr.2.sessionId == s)) (s : String) :
    ((runDetector (aiDetector maxGap) l₁).1 s = (runDetector (aiDetector maxGap) l₂).1 s
      ∧ ((runDetector (aiDetector maxGap) l₁).2.filter fun e => e.sessionId == s)
          = ((runDetector (aiDetector maxGap) l₂).2.filter fun e => e.sessionId == s))
    ∧ ((runDetector (taskDetector maxGap) l₁).1 s = (runDetector (taskDetector maxGap) l₂).1 s
      ∧ ((runDetector (taskDetector maxGap) l₁).2.filter fun e => e.sessionId == s)
          = ((runDetector (taskDetector maxGap) l₂).2.filter fun e => e.sessionId == s))
    ∧ ((runDetector (devDetector maxGap) l₁).1 s = (runDetector (devDetector maxGap) l₂).1 s
      ∧ ((runDetector (devDetector maxGap) l₁).2.filter fun e => e.sessionId == s)
          = ((runDetector (devDetector maxGap) l₂).2.filter fun e => e.sessionId == s)) := by
  unfold runDetector
  refine ⟨⟨?_, ?_⟩, ⟨?_, ?_⟩, ⟨?_, ?_⟩⟩
  · rw [(detLocalize _ (aiStep_sessionId maxGap) l₁ _ s).1,
      (detLocalize _ (aiStep_sessionId maxGap) l₂ _ s).1, hfil s]
  · rw [(detLocalize _ (aiStep_sessionId maxGap) l₁ _ s).2,
      (detLocalize _ (aiStep_sessionId maxGap) l₂ _ s).2, hfil s]
  · rw [(detLocalize _ (taskStep_sessionId maxGap) l₁ _ s).1,
      (detLocalize _ (taskStep_sessionId maxGap) l₂ _ s).1, hfil s]
  · rw [(detLocalize _ (taskStep_sessionId maxGap) l₁ _ s).2,
      (detLocalize _ (taskStep_sessionId maxGap) l₂ _ s).2, hfil s]
  · rw [(detLocalize _ (devStep_sessionId maxGap) l₁ _ s).1,
      (detLocalize _ (devStep_sessionId maxGap) l₂ _ s).1, hfil s]
  · rw [(detLocalize _ (devStep_sessionId maxGap) l₁ _ s).2,
      (detLocalize _ (devStep_sessionId maxGap) l₂ _ s).2, hfil s]

/-- Witness for C8: two interleavings of sessions `A` and `B` that keep each
session's own order give identical results for session `A` in all three
detectors. -/
theorem claim_C8_detector_independence_witness :
    ((runDetector (aiDetector 5) [(1, ⟨"T1", "A", "AI_START", "x"⟩), (2, ⟨"T1", "B", "CMD_START", "make build"⟩), (3, ⟨"T2", "A", "AI_END", "x"⟩)]).1 "A"
        = (runDetector (aiDetector 5) [(2, ⟨"T1", "B", "CMD_START", "make build"⟩), (1, ⟨"T1", "A", "AI_START", "x"⟩), (3, ⟨"T2", "A", "AI_END", "x"⟩)]).1 "A"
      ∧ ((runDetector (aiDetector 5) [(1, ⟨"T1", "A", "AI_START", "x"⟩), (2, ⟨"T1", "B", "CMD_START", "make build"⟩), (3, ⟨"T2", "A", "AI_END", "x"⟩)]).2.filter fun e => e.sessionId == "A")
          = ((runDetector (aiDetector 5) [(2, ⟨"T1", "B", "CMD_START", "make build"⟩), (1, ⟨"T1", "A", "AI_START", "x"⟩), (3, ⟨"T2", "A", "AI_END", "x"⟩)]).2.filter fun e => e.sessionId == "A"))
    ∧ ((runDetector (taskDetector 5) [(1, ⟨"T1", "A", "AI_START", "x"⟩), (2, ⟨"T1", "B", "CMD_START", "make build"⟩), (3, ⟨"T2", "A", "AI_END", "x"⟩)]).1 "A"
        = (runDetector (taskDetector 5) [(2, ⟨"T1", "B", "CMD_START", "make build"⟩), (1, ⟨"T1", "A", "AI_START", "x"⟩), (3, ⟨"T2", "A", "AI_END", "x"⟩)]).1 "A"
      ∧ ((runDetector (taskDetector 5) [(1, ⟨"T1", "A", "AI_START", "x"⟩), (2, ⟨"T1", "B", "CMD_START", "make build"⟩), (3, ⟨"T2", "A", "AI_END", "x"⟩)]).2.filter fun e => e.sessionId == "A")
          = ((runDetector (taskDetector 5) [(2, ⟨"T1", "B", "CMD_START", "make build"⟩), (1, ⟨"T1", "A", "AI_START", "x"⟩), (3, ⟨"T2", "A", "AI_END", "x"⟩)]).2.filter fun e => e.sessionId == "A"))
    ∧ ((runDetector (devDetector 5) [(1, ⟨"T1", "A", "AI_START", "x"⟩), (2, ⟨"T1", "B", "CMD_START", "make build"⟩), (3, ⟨"T2", "A", "AI_END", "x"⟩)]).1 "A"
        = (runDetector (devDetector 5) [(2, ⟨"T1", "B", "CMD_START", "make build"⟩), (1, ⟨"T1", "A", "AI_START", "x"⟩), (3, ⟨"T2", "A", "AI_END", "x"⟩)]).1 "A"
      ∧ ((runDetector (devDetector 5) [(1, ⟨"T1", "A", "AI_START", "x"⟩), (2, ⟨"T1", "B", "CMD_START", "make build"⟩), (3, ⟨"T2", "A", "AI_END", "x"⟩)]).2.filter fun e => e.sessionId == "A")
          = ((runDetector (devDetector 5) [(2, ⟨"T1", "B", "CMD_START", "make build"⟩), (1, ⟨"T1", "A", "AI_START", "x"⟩), (3, ⟨"T2", "A", "AI_END", "x"⟩)]).2.filter fun e => e.sessionId == "A")) :=
  claim_C8_detector_independence 5
    [(1, ⟨"T1", "A", "AI_START", "x"⟩), (2, ⟨"T1", "B", "CMD_START", "make build"⟩), (3, ⟨"T2", "A", "AI_END", "x"⟩)]
    [(2, ⟨"T1", "B", "CMD_START", "make build"⟩), (1, ⟨"T1", "A", "AI_START", "x"⟩), (3, ⟨"T2", "A", "AI_END", "x"⟩)]
    (by
      intro s
      by_cases h1 : s = "A"
      · subst h1
        decide
      · by_cases h2 : s = "B"
        · subst h2
          decide
        · have hA : (("A" : String) == s) = false := beq_eq_false_iff_ne.mpr fun h => h1 h.symm
          have hB : (("B" : String) == s) = false := beq_eq_false_iff_ne.mpr fun h => h2 h.symm
          simp [List.filter_cons, hA, hB])
    "A"

/-- Setting related entries at the same index preserves a pointwise
relation. -/
theorem forall2_set {α β : Type} {R : α → β → Prop} {a : α} {b : β} (hR : R a b) :
    ∀ {l₁ : List α} {l₂ : List β}, List.Forall₂ R l₁ l₂ →
      ∀ i : Nat, List.Forall₂ R (l₁.set i a) (l₂.set i b) := by
  intro l₁ l₂ h
  induction h with
  | nil => intro i; exact List.Forall₂.nil
  | @cons x y l₁ l₂ hxy htail ih =>
    intro i
    cases i with
    | zero => exact List.Forall₂.cons hR htail
    | succ n => exact List.Forall₂.cons hxy (ih n)

/-- From a pointwise relation, an entry of the right list has a related entry
of the left list at the same index. -/
theorem forall2_get_right {α β : Type} {R : α → β → Prop} :
    ∀ {l₁ : List α} {l₂ : List β}, List.Forall₂ R l₁ l₂ →
      ∀ {i : Nat} {b : β}, l₂[i]? = some b → ∃ a, l₁[i]? = some a ∧ R a b := by
  intro l₁ l₂ h
  induction h with
  | nil => intro i b hb; simp at hb
  | @cons x y l₁ l₂ hxy htail ih =>
    intro i b hb
    cases i with
    | zero =>
      simp at hb
      exact ⟨x, by simp, hb ▸ hxy⟩
    | succ n =>
      simp only [List.getElem?_cons_succ] at hb ⊢
      exact ih hb

/-- From a pointwise relation, an entry of the left list has a related entry
of the right list at the same index. -/
theorem forall2_get_left {α β : Type} {R : α → β → Prop} :
    ∀ {l₁ : List α} {l₂ : List β}, List.Forall₂ R l₁ l₂ →
      ∀ {i : Nat} {a : α}, l₁[i]? = some a → ∃ b, l₂[i]? = some b ∧ R a b := by
  intro l₁ l₂ h
  induction h with
  | nil => intro i a ha; simp at ha
  | @cons x y l₁ l₂ hxy htail ih =>
    intro i a ha
    cases i with
    | zero =>
      simp at ha
      exact ⟨y, by simp, ha ▸ hxy⟩
    | succ n =>
      simp only [List.getElem?_cons_succ] at ha ⊢
      exact ih ha

/-- Publishing preserves the bus's delivery invariant. -/
theorem busInv_publish {α : Type} {st : BusTrace α} (ev : α) (h : BusInv st) :
    BusInv (busStep st (.publish ev)) := by
  unfold BusInv at h ⊢
  simp only [busStep, publishAll]
  rw [List.forall₂_map_right_iff]
  refine h.imp fun {r sub} hp => ?_
  unfold publishSub
  split
  · have he : (r ++ (SubState.queue sub ++ [ev])) = (r ++ SubState.queue sub) ++ [ev] := by
      simp
    rw [he]
    exact hp.append (List.Sublist.refl [ev])
  · have h2 : List.Sublist (r ++ (SubState.queue sub).tail) (r ++ SubState.queue sub) :=
      (List.tail_sublist _).append_left r
    have he : (r ++ ((SubState.queue sub).tail ++ [ev]))
        = (r ++ (SubState.queue sub).tail) ++ [ev] := by simp
    rw [he]
    exact (h2.trans hp).append (List.Sublist.refl [ev])

/-- Draining one subscriber's next event preserves the bus's delivery
invariant. -/
theorem busInv_receive {α : Type} {st : BusTrace α} (i : Nat) (h : BusInv st) :
    BusInv (busStep st (.receive i)) := by
  rcases hs : st.subs[i]? with _ | s
  · have hbs : busStep st (.receive i) = st := by simp [busStep, hs]
    rw [hbs]
    exact h
  · rcases hq : SubState.queue s with _ | ⟨e, rest⟩
    · have hbs : busStep st (.receive i) = st := by simp [busStep, hs, hq]
      rw [hbs]
      exact h
    · have hbs : busStep st (.receive i)
          = { subs := st.subs.set i { s with queue := rest },
              received := st.received.set i ((st.received.getD i []) ++ [e]),
              published := st.published } := by
        simp [busStep, hs, hq]
      rw [hbs]
      unfold BusInv at h ⊢
      simp only
      obtain ⟨r, hr, hrs⟩ := forall2_get_right h hs
      have hgd : st.received.getD i [] = r := by
        rw [List.getD_eq_getD_get?, List.get?_eq_getElem?, hr]
        rfl
      rw [hgd]
      refine forall2_set ?_ h i
      show ((r ++ [e]) ++ SubState.queue { s with queue := rest }).Sublist st.published
      have he : (r ++ [e]) ++ SubState.queue { s with queue := rest }
          = r ++ SubState.queue s := by
        simp [hq]
      rw [he]
      exact hrs

/-- Any sequence of bus operations preserves the delivery invariant. -/
theorem busInv_fold {α : Type} (ops : List (BusOp α)) :
    ∀ st : BusTrace α, BusInv st → BusInv (ops.foldl busStep st) := by
  induction ops with
  | nil => intro st h; exact h
  | cons op rest ih =>
    intro st h
    rw [List.foldl_cons]
    refine ih _ ?_
    cases op with
    | publish ev => exact busInv_publish ev h
    | receive i => exact busInv_receive i h

/-- A fresh bus satisfies the delivery invariant. -/
theorem busInv_init {α : Type} (caps : List Nat) :
    BusInv (⟨caps.map fun c => ⟨[], false, c⟩, caps.map fun _ => [], []⟩ : BusTrace α) := by
  unfold BusInv
  simp only
  induction caps with
  | nil => exact List.Forall₂.nil
  | cons c cs ih => exact List.Forall₂.cons (by simp) ih

/-- C6: over any operation sequence, the events a subscriber has received
form a subsequence of the published events in publish order; a publish into
a full queue drops that queue's oldest unread event only and sets the
subscriber's missed-events flag; and a publish acts on each subscriber's
queue independently of all others. -/
theorem claim_C6_bus_delivery (α : Type) (caps : List Nat) (ops : List (BusOp α)) (i : Nat) :
    ((busRun caps ops).received.getD i []).Sublist (busRun caps ops).published
    ∧ (∀ (s : SubState α) (ev : α), s.cap ≤ s.queue.length →
        publishSub ev s = ⟨s.queue.tail ++ [ev], true, s.cap⟩)
    ∧ (∀ (subs : List (SubState α)) (ev : α) (j : Nat),
        (publishAll ev subs)[j]? = (subs[j]?).map (publishSub ev)) := by
  refine ⟨?_, ?_, ?_⟩
  · have hinv : BusInv (busRun caps ops) := by
      unfold busRun
      exact busInv_fold ops _ (busInv_init caps)
    rcases hr : (busRun caps ops).received[i]? with _ | r
    · rw [List.getD_eq_getD_get?, List.get?_eq_getElem?, hr]
      exact List.nil_sublist _
    · obtain ⟨sub, hsub, hR⟩ := forall2_get_left hinv hr
      rw [List.getD_eq_getD_get?, List.get?_eq_getElem?, hr]
      exact (List.sublist_append_left r _).trans hR
  · intro s ev hfull
    unfold publishSub
    rw [if_neg (Nat.not_lt.mpr hfull)]
  · intro subs ev j
    unfold publishAll
    exact List.getElem?_map (publishSub ev) subs j

/-- C5: `parse` is a total function returning a ParsedRecord or Rejected on
every string; the line `garbage` (no delimiters) is Rejected, and feeding it
through a pipeline step only increments the malformed-line counter — every
detector state, the Reducer window and the published events are unchanged. -/
theorem claim_C5_parser_total_garbage :
    (∀ s : String, (∃ r, parse s = .ok r) ∨ parse s = .rejected)
    ∧ parse "garbage" = .rejected
    ∧ ∀ (cfg : Config) (ps : PipeState) (now : Nat),
        pipeStep cfg ps now "garbage" = { ps with malformed := ps.malformed + 1 } := by
  refine ⟨fun s => ?_, by decide, fun cfg ps now => ?_⟩
  · cases h : parse s with
    | ok r => exact .inl ⟨r, rfl⟩
    | rejected => exact .inr rfl
  · have hg : parse "garbage" = .rejected := by decide
    simp [pipeStep, hg]

/-- C2: starting from any Reducer window in which `e₁`'s fingerprint was not
confirmed within the last `W`, candidate `e₁` is confirmed (emitted, window
entry created at its arrival time), and a second candidate `e₂` with the same
fingerprint arriving within `W` of that confirmation is suppressed (nothing
emitted) and merged: the window's confirmation for that fingerprint carries
both detector ids. -/
theorem claim_C2_reducer_suppression (W : Nat) (st : ReducerState) (t₁ t₂ : Nat)
    (e₁ e₂ : DetectionEvent)
    (hfp : e₂.fingerprint = e₁.fingerprint)
    (hwin : t₂ ≤ t₁ + W)
    (hnew : findFp (purge W t₁ st) e₁.fingerprint = none) :
    (reduce W st t₁ e₁).2 = some ⟨e₁, [e₁.detectorId]⟩
    ∧ (reduce W (reduce W st t₁ e₁).1 t₂ e₂).2 = none
    ∧ ∃ entry : WindowEntry,
        findFp (reduce W (reduce W st t₁ e₁).1 t₂ e₂).1 e₁.fingerprint
          = some (e₁.fingerprint, entry)
        ∧ e₁.detectorId ∈ entry.confirmation.detectors
        ∧ e₂.detectorId ∈ entry.confirmation.detectors := by
  have h1 : reduce W st t₁ e₁
      = ((e₁.fingerprint, ⟨t₁, ⟨e₁, [e₁.detectorId]⟩⟩) :: purge W t₁ st,
         some ⟨e₁, [e₁.detectorId]⟩) := by
    simp [reduce, hnew]
  have hpurge : purge W t₂
        ((e₁.fingerprint, (⟨t₁, ⟨e₁, [e₁.detectorId]⟩⟩ : WindowEntry)) :: purge W t₁ st)
      = (e₁.fingerprint, (⟨t₁, ⟨e₁, [e₁.detectorId]⟩⟩ : WindowEntry))
          :: purge W t₂ (purge W t₁ st) := by
    simp [purge, List.filter_cons, hwin]
  have hfind : findFp
        ((e₁.fingerprint, (⟨t₁, ⟨e₁, [e₁.detectorId]⟩⟩ : WindowEntry))
          :: purge W t₂ (purge W t₁ st)) e₂.fingerprint
      = some (e₁.fingerprint, ⟨t₁, ⟨e₁, [e₁.detectorId]⟩⟩) := by
    simp [findFp, List.find?_cons, hfp]
  have h2 : reduce W (reduce W st t₁ e₁).1 t₂ e₂
      = ((e₁.fingerprint, ⟨t₁, addDetector ⟨e₁, [e₁.detectorId]⟩ e₂.detectorId⟩)
            :: mergeInto (purge W t₂ (purge W t₁ st)) e₂.fingerprint e₂.detectorId,
         none) := by
    rw [h1]
    simp only [reduce, hpurge, hfind]
    simp [mergeInto, hfp]
  refine ⟨by rw [h1], by rw [h2],
    ⟨t₁, addDetector ⟨e₁, [e₁.detectorId]⟩ e₂.detectorId⟩, ?_, ?_, ?_⟩
  · rw [h2]
    simp [findFp, List.find?_cons]
  · unfold addDetector
    split <;> simp
  · unfold addDetector
    split <;> rename_i h <;> simp_all

/-- Witness for C2: two candidates sharing a fingerprint, from detectors `d1`
and `d2`, three time units apart inside a window of five, against an empty
window: one emission, then suppression with both ids merged. -/
theorem claim_C2_reducer_suppression_witness :
    (reduce 5 [] 0 ⟨"k", "S", ⟨"k", "S", "p"⟩, 50, "T0", "d1"⟩).2
        = some ⟨⟨"k", "S", ⟨"k", "S", "p"⟩, 50, "T0", "d1"⟩, ["d1"]⟩
    ∧ (reduce 5 (reduce 5 [] 0 ⟨"k", "S", ⟨"k", "S", "p"⟩, 50, "T0", "d1"⟩).1 3
          ⟨"k", "S", ⟨"k", "S", "p"⟩, 60, "T3", "d2"⟩).2 = none
    ∧ ∃ entry : WindowEntry,
        findFp (reduce 5 (reduce 5 [] 0 ⟨"k", "S", ⟨"k", "S", "p"⟩, 50, "T0", "d1"⟩).1 3
            ⟨"k", "S", ⟨"k", "S", "p"⟩, 60, "T3", "d2"⟩).1
            (⟨"k", "S", ⟨"k", "S", "p"⟩, 50, "T0", "d1"⟩ : DetectionEvent).fingerprint
          = some ((⟨"k", "S", ⟨"k", "S", "p"⟩, 50, "T0", "d1"⟩ : DetectionEvent).fingerprint, entry)
        ∧ (⟨"k", "S", ⟨"k", "S", "p"⟩, 50, "T0", "d1"⟩ : DetectionEvent).detectorId
            ∈ entry.confirmation.detectors
        ∧ (⟨"k", "S", ⟨"k", "S", "p"⟩, 60, "T3", "d2"⟩ : DetectionEvent).detectorId
            ∈ entry.confirmation.detectors :=
  claim_C2_reducer_suppression 5 [] 0 3
    ⟨"k", "S", ⟨"k", "S", "p"⟩, 50, "T0", "d1"⟩
    ⟨"k", "S", ⟨"k", "S", "p"⟩, 60, "T3", "d2"⟩
    rfl (by decide) (by decide)

/-- C7: feeding `T1|S1|AI_START|x` then `T2|S1|AI_END|x` within the
AI-response timeout window publishes exactly one ConfirmedDetection, of kind
`ai-response` for session `S1`; a third duplicate `T3|S1|AI_END|x` within
window `W` of that confirmation adds nothing. -/
theorem claim_C7_end_to_end (cfg : Config) (t₁ t₂ t₃ : Nat)
    (hgap : t₂ - t₁ ≤ cfg.maxGap) (_hwin : t₃ ≤ t₂ + cfg.window) :
    (pipeRun cfg [(t₁, "T1|S1|AI_START|x"), (t₂, "T2|S1|AI_END|x")]).published
      = [⟨⟨"ai-response", "S1", ⟨"ai-response", "S1", "x"⟩, 90, "T2", "ai-detector"⟩,
          ["ai-detector"]⟩]
    ∧ (pipeRun cfg
          [(t₁, "T1|S1|AI_START|x"), (t₂, "T2|S1|AI_END|x"),
           (t₃, "T3|S1|AI_END|x")]).published
      = [⟨⟨"ai-response", "S1", ⟨"ai-response", "S1", "x"⟩, 90, "T2", "ai-detector"⟩,
          ["ai-detector"]⟩] := by
  have hgap' : ¬ (cfg.maxGap < t₂ - t₁) := by omega
  constructor <;>
    simp [pipeRun, pipeStep, consumeOne, aiDetector, aiStep, taskDetector, taskStep,
      devDetector, devStep, applyTimeout, sessUpdate, reduceMany, reduce, purge, findFp,
      mergeInto, addDetector, parse, splitFields, mkFingerprint, normalizeKey, trimChars,
      startsWithStr, isExitPattern, isDevCommand, devPatterns, initPipe, hgap']

/-- Witness for C7: the scenario at tick times 1, 2, 3 with a maximum gap and
window of 5. -/
theorem claim_C7_end_to_end_witness :
    (pipeRun ⟨5, 5⟩ [(1, "T1|S1|AI_START|x"), (2, "T2|S1|AI_END|x")]).published
      = [⟨⟨"ai-response", "S1", ⟨"ai-response", "S1", "x"⟩, 90, "T2", "ai-detector"⟩,
          ["ai-detector"]⟩]
    ∧ (pipeRun ⟨5, 5⟩
          [(1, "T1|S1|AI_START|x"), (2, "T2|S1|AI_END|x"), (3, "T3|S1|AI_END|x")]).published
      = [⟨⟨"ai-response", "S1", ⟨"ai-response", "S1", "x"⟩, 90, "T2", "ai-detector"⟩,
          ["ai-detector"]⟩] :=
  claim_C7_end_to_end ⟨5, 5⟩ 1 2 3 (by decide) (by decide)

/-- Witness for C9: invoking from `/home/user` as `repo/generate_architecture.py`
and from `/home/user/repo` as `generate_architecture.py` resolve to the same
script file and yield the same configuration, targeting the script's own
directory. -/
theorem claim_C9_output_location_witness :
    (generate_architecture ⟨["home", "user"], ⟨false, ["repo", "generate_architecture.py"]⟩⟩).config
      = (generate_architecture ⟨["home", "user", "repo"], ⟨false, ["generate_architecture.py"]⟩⟩).config
    ∧ (generate_architecture ⟨["home", "user"], ⟨false, ["repo", "generate_architecture.py"]⟩⟩).config.filename
        = dirname (abspath ["home", "user"] ⟨false, ["repo", "generate_architecture.py"]⟩) ++ ["architecture"]
    ∧ (generate_architecture ⟨["home", "user"], ⟨false, ["repo", "generate_architecture.py"]⟩⟩).config.outformat = "png"
    ∧ (generate_architecture ⟨["home", "user"], ⟨false, ["repo", "generate_architecture.py"]⟩⟩).config.showDiag = false :=
  claim_C9_output_location ["home", "user"] ["home", "user", "repo"]
    ⟨false, ["repo", "generate_architecture.py"]⟩ ⟨false, ["generate_architecture.py"]⟩ rfl

end Onibi
